import Mathlib

/-!
Verification of the call-center summarizer pipeline (sharathp/call_sumarizer_agents).

Shallow embedding conventions:
* Python floats are modelled as rationals.
* Python dicts that preserve insertion order are modelled as association lists.
* External network calls (Deepgram, OpenAI chat, Whisper) are modelled by an
  environment record supplying the outcome of each call, and the Python
  standard-library JSON parser is passed in as a function argument.
* Fallible Python code returns Except; an escaping Python exception is the
  error branch.
-/

namespace CallSummarizer

/-! ## Data model, from src/utils/validation.py -/

/-- InputType enumeration from validation.py. -/
inductive InputType where
  | AUDIO
  | TRANSCRIPT
deriving DecidableEq, Repr

/-- Content of a CallInput: raw audio bytes for AUDIO, decoded text for TRANSCRIPT
(the field is typed Any in validation.py). -/
inductive Content where
  | bytes (b : List Nat)
  | text (s : String)
deriving DecidableEq, Repr

/-- CallInput from validation.py. -/
structure CallInput where
  input_type : InputType
  content : Content
  file_name : Option String
deriving DecidableEq, Repr

/-- Modelled from the spec: the SpeakerSegment record type is missing from
src/utils/validation.py, although transcription_agent.py, summarization_agent.py and
quality_score_agent.py all import it from utils.validation and construct it with the
fields speaker, text, start, end, confidence.  Fields follow the spec wording:
speaker label, utterance text, start and end in seconds, confidence. -/
structure SpeakerSegment where
  speaker : String
  text : String
  start : ℚ
  «end» : ℚ
  confidence : ℚ
deriving DecidableEq, Repr

/-- Modelled from the spec: field-level validation of a SpeakerSegment
(end at or after start, confidence in the inclusive range 0 to 1). -/
def SpeakerSegment.validSpec (s : SpeakerSegment) : Prop :=
  s.start ≤ s.«end» ∧ 0 ≤ s.confidence ∧ s.confidence ≤ 1

instance (s : SpeakerSegment) : Decidable s.validSpec := by
  unfold SpeakerSegment.validSpec; infer_instance

/-- CallSummary from validation.py.  The Literal constraints on sentiment and
outcome are recorded by the predicate below. -/
structure CallSummary where
  summary : String
  key_points : List String
  sentiment : String
  outcome : String
deriving DecidableEq, Repr

/-- Pydantic Literal validation for CallSummary fields. -/
def CallSummary.valid (c : CallSummary) : Prop :=
  c.sentiment ∈ ["positive", "neutral", "negative"] ∧
  c.outcome ∈ ["resolved", "escalated", "follow_up", "unresolved"]

/-- QualityScore from validation.py; each score carries Field constraints
ge 1.0 and le 10.0, recorded by the predicate below. -/
structure QualityScore where
  tone_score : ℚ
  professionalism_score : ℚ
  resolution_score : ℚ
  feedback : String
deriving DecidableEq, Repr

/-- Pydantic Field range validation for QualityScore. -/
def QualityScore.valid (q : QualityScore) : Prop :=
  1 ≤ q.tone_score ∧ q.tone_score ≤ 10 ∧
  1 ≤ q.professionalism_score ∧ q.professionalism_score ≤ 10 ∧
  1 ≤ q.resolution_score ∧ q.resolution_score ≤ 10

instance (q : QualityScore) : Decidable q.valid := by
  unfold QualityScore.valid; infer_instance

/-- One entry of AgentState.errors: the dict with keys agent, error, timestamp
appended by AgentState.add_error. -/
structure ErrorRecord where
  agent : String
  error : String
  timestamp : String
deriving DecidableEq, Repr

/-- AgentState from validation.py.  The speakers field is modelled from the spec:
it is absent from validation.py even though transcription_agent.py assigns
state.speakers and both LLM agents read it; per the spec it is a list of
SpeakerSegment defaulting to empty. -/
structure AgentState where
  call_id : String
  input_data : CallInput
  transcript_text : Option String
  speakers : List SpeakerSegment
  summary : Option CallSummary
  quality_score : Option QualityScore
  errors : List ErrorRecord
  retry_counts : List (String × Nat)
deriving DecidableEq, Repr

/-- AgentState.add_error: appends an agent, error, timestamp record; the
timestamp argument stands for datetime.now().isoformat(). -/
def AgentState.add_error (s : AgentState) (agent error timestamp : String) : AgentState :=
  { s with errors := s.errors ++ [⟨agent, error, timestamp⟩] }

/-- ProcessingResult from validation.py. -/
structure ProcessingResult where
  call_id : String
  status : String
  transcript_text : Option String
  summary : Option CallSummary
  quality_score : Option QualityScore
  errors : List ErrorRecord
  processing_time_seconds : ℚ
  timestamp : String
deriving DecidableEq, Repr

/-! ## Python helpers used throughout the embedding -/

/-- Lookup in an insertion-ordered association list (Python dict read). -/
def alookup (kvs : List (String × α)) (k : String) : Option α :=
  match kvs with
  | [] => none
  | (k₀, v₀) :: rest => if k₀ = k then some v₀ else alookup rest k

/-- Python dict.get with a default value. -/
def adefault (kvs : List (String × α)) (k : String) (d : α) : α :=
  (alookup kvs k).getD d

/-- Python dict assignment: replace the value when the key is present,
otherwise append the new binding at the end (insertion order). -/
def aset (kvs : List (String × α)) (k : String) (v : α) : List (String × α) :=
  match kvs with
  | [] => [(k, v)]
  | (k₀, v₀) :: rest => if k₀ = k then (k₀, v) :: rest else (k₀, v₀) :: aset rest k v

/-- Truthiness of an optional Python string: None and the empty string are falsy. -/
def pyFalsyStr : Option String → Bool
  | none => true
  | some s => s = ""

/-! ## Workflow retry decision

From src/workflow.py, CallCenterWorkflow.should_retry (underscore-prefixed in
the source): count the error records attributed to the agent, compare with the
recorded retry count, and retry only on a new error while the retry count is
below max_retries, incrementing the count first. -/

/-- Number of error records attributed to the given agent, the length of the
filtered list agent_errors computed in both workflow files. -/
def countAgentErrors (errors : List ErrorRecord) (agent_name : String) : Nat :=
  (errors.filter (fun e => e.agent = agent_name)).length

/-- The retry decision of src/workflow.py: returns the boolean decision together
with the state, whose retry_counts entry was incremented when the decision is
true.  has_new_error asks for strictly more recorded errors than retries. -/
def should_retry (state : AgentState) (agent_name : String) (max_retries : Nat) :
    Bool × AgentState :=
  let current_retries := adefault state.retry_counts agent_name 0
  let has_new_error := countAgentErrors state.errors agent_name > current_retries
  if has_new_error ∧ current_retries < max_retries then
    (true, { state with
             retry_counts := aset state.retry_counts agent_name (current_retries + 1) })
  else
    (false, state)

/-- Resolved max_retries default in src/workflow_refactored.py: the expression
max_retries or config.model.max_retries or DEFAULT_MAX_RETRIES, where the
ModelConfig default in src/config/settings.py is 2 and DEFAULT_MAX_RETRIES in
src/utils/constants.py is 2.  Python or replaces a falsy (None or zero) value. -/
def resolveMaxRetries (max_retries : Option Nat) : Nat :=
  match max_retries with
  | none => 2
  | some k => if k = 0 then 2 else k

/-- The retry decision of src/workflow_refactored.py: identical bookkeeping, but
the condition is merely that the agent has at least one recorded error (the list
agent_errors is truthy) and the retry count is below max_retries; it does not
require a new error since the last decision. -/
def should_retry_refactored (state : AgentState) (agent_name : String)
    (max_retries : Option Nat) : Bool × AgentState :=
  let m := resolveMaxRetries max_retries
  let current_retries := adefault state.retry_counts agent_name 0
  if countAgentErrors state.errors agent_name ≠ 0 ∧ current_retries < m then
    (true, { state with
             retry_counts := aset state.retry_counts agent_name (current_retries + 1) })
  else
    (false, state)

/-! ## Terminal status classification -/

/-- Status classification inlined in src/workflow.py process_call: success when
summary and quality score are both present and errors is empty, else partial
when either is present, else failed.  Presence is Python truthiness: a pydantic
model instance is always truthy, so presence is exactly non-None. -/
def workflow_status (summary : Option CallSummary) (quality_score : Option QualityScore)
    (errors : List ErrorRecord) : String :=
  if summary.isSome ∧ quality_score.isSome ∧ errors = [] then "success"
  else if summary.isSome ∨ quality_score.isSome then "partial"
  else "failed"

/-- CallCenterWorkflow.determine_status (underscore-prefixed) from
src/workflow_refactored.py; same conditional structure via the booleans
has_summary, has_quality, has_errors. -/
def determine_status (state : AgentState) : String :=
  if state.summary.isSome ∧ state.quality_score.isSome ∧ state.errors = [] then "success"
  else if state.summary.isSome ∨ state.quality_score.isSome then "partial"
  else "failed"

/-! ## Top-level exception handler of process_call -/

/-- The except branch of process_call in src/workflow.py: the result returned to
the caller when any exception escapes the body.  Note the literal agent string
is the misspelled "worflow".  The message argument is str(e), elapsed is the
measured wall-clock time, now is the ProcessingResult timestamp default. -/
def workflow_exception_result (msg : String) (elapsed : ℚ) (now : String) :
    ProcessingResult :=
  { call_id := "error"
    status := "failed"
    transcript_text := none
    summary := none
    quality_score := none
    errors := [⟨"worflow", msg, ""⟩]
    processing_time_seconds := elapsed
    timestamp := now }

/-- The except branch of process_call in src/workflow_refactored.py: same shape,
with the agent string spelled "workflow" and status STATUS_FAILED. -/
def workflow_exception_result_refactored (msg : String) (elapsed : ℚ) (now : String) :
    ProcessingResult :=
  { call_id := "error"
    status := "failed"
    transcript_text := none
    summary := none
    quality_score := none
    errors := [⟨"workflow", msg, ""⟩]
    processing_time_seconds := elapsed
    timestamp := now }

/-! ## Names actually defined by src/utils/validation.py

The following lists transcribe which classes validation.py defines and which
fields its AgentState declares, and what transcription_agent.py line 13 imports
from utils.validation.  They witness that SpeakerSegment and the speakers field
are referenced across the repository but never defined. -/

/-- Class names defined in src/utils/validation.py. -/
def validation_py_classes : List String :=
  ["InputType", "CallInput", "CallSummary", "QualityScore", "AgentState",
   "ProcessingResult"]

/-- Field names declared by the AgentState class in src/utils/validation.py. -/
def validation_py_agentstate_fields : List String :=
  ["call_id", "input_data", "transcript_text", "summary", "quality_score",
   "errors", "retry_counts"]

/-- Names imported from utils.validation at line 13 of
src/agents/transcription_agent.py. -/
def transcription_agent_validation_imports : List String :=
  ["AgentState", "InputType", "SpeakerSegment"]

/-! ## JSON values

Values produced by the standard-library json module.  Python floats and ints
are both modelled as rationals; json.loads object order follows the input, so
objects are association lists. -/

/-- A parsed JSON value. -/
inductive JValue where
  | null
  | bool (b : Bool)
  | num (q : ℚ)
  | str (s : String)
  | arr (xs : List JValue)
  | obj (kvs : List (String × JValue))

/-- Lowercase hexadecimal digit, as used by json.dumps escapes. -/
def hexDigit (n : Nat) : Char :=
  if n < 10 then Char.ofNat (48 + n) else Char.ofNat (87 + n)

/-- Escape of one character inside a JSON string literal, following json.dumps
(ASCII inputs; the ensure_ascii escaping of characters above 127 is not
exercised by this code base). -/
def jsonEscapeChar (c : Char) : String :=
  if c = '"' then "\\\""
  else if c = '\\' then "\\\\"
  else if c = '\n' then "\\n"
  else if c = '\t' then "\\t"
  else if c = '\r' then "\\r"
  else if c.toNat < 32 then
    "\\u00" ++ String.mk [hexDigit (c.toNat / 16), hexDigit (c.toNat % 16)]
  else String.mk [c]

/-- Escape of a whole JSON string body. -/
def jsonEscape (s : String) : String :=
  String.join (s.data.map jsonEscapeChar)

/-- Decimal expansion of the fractional part num over den (den positive,
num < den), by long division; fuel bounds the number of emitted digits, which
suffices for the terminating expansions produced by repr of a Python float. -/
def fracDigits : Nat → Nat → Nat → String
  | 0, _, _ => ""
  | _, 0, _ => ""
  | fuel + 1, r, den =>
    let r10 := r * 10
    String.singleton (Char.ofNat (48 + r10 / den)) ++ fracDigits fuel (r10 % den) den

/-- Rendering of a JSON number: integers without a decimal point, other
rationals as sign, integer part and fractional digits. -/
def jsonNumRepr (q : ℚ) : String :=
  let sign := if q < 0 then "-" else ""
  let n := q.num.natAbs
  let d := q.den
  if d = 1 then sign ++ toString n
  else sign ++ toString (n / d) ++ "." ++ fracDigits 40 (n % d) d

mutual

/-- json.dumps with default arguments: item separator comma-space, key
separator colon-space. -/
def dumps : JValue → String
  | JValue.null => "null"
  | JValue.bool b => cond b "true" "false"
  | JValue.num q => jsonNumRepr q
  | JValue.str s => "\"" ++ jsonEscape s ++ "\""
  | JValue.arr xs => "[" ++ String.intercalate ", " (dumpsList xs) ++ "]"
  | JValue.obj kvs => "\x7b" ++ String.intercalate ", " (dumpsItems kvs) ++ "\x7d"

/-- Renderings of the elements of a JSON array. -/
def dumpsList : List JValue → List String
  | [] => []
  | x :: xs => dumps x :: dumpsList xs

/-- Renderings of the key-value pairs of a JSON object. -/
def dumpsItems : List (String × JValue) → List String
  | [] => []
  | (k, v) :: kvs => ("\"" ++ jsonEscape k ++ "\": " ++ dumps v) :: dumpsItems kvs

end

/-! ## Python string primitives

Structurally recursive models of the Python string operations the code uses
(strip, startswith, replace, whitespace split), restricted to ASCII-adjacent
whitespace as recognized by Char.isWhitespace. -/

/-- Python str.strip() with no arguments: drop whitespace from both ends. -/
def pyStrip (s : String) : String :=
  String.mk (((s.data.dropWhile Char.isWhitespace).reverse.dropWhile
    Char.isWhitespace).reverse)

/-- Python str.startswith. -/
def pyStartsWith (s pre : String) : Bool :=
  pre.data.isPrefixOf s.data

/-- Replacement loop of str.replace: scan left to right, replacing each
non-overlapping occurrence of the pattern; the fuel starts at the string
length, and each step consumes at least one character. -/
def replaceFuel (pat rep : List Char) : Nat → List Char → List Char
  | _, [] => []
  | 0, s => s
  | fuel + 1, c :: cs =>
    if pat.isPrefixOf (c :: cs) then
      rep ++ replaceFuel pat rep fuel (List.drop pat.length (c :: cs))
    else
      c :: replaceFuel pat rep fuel cs

/-- Python str.replace for a nonempty pattern (the empty pattern never occurs
in this code base). -/
def pyReplace (s pattern replacement : String) : String :=
  if pattern = "" then s
  else String.mk (replaceFuel pattern.data replacement.data s.data.length s.data)

/-- Splitting loop of str.split() with no arguments. -/
def splitWsAux : List Char → List Char → List String
  | [], acc => if acc.isEmpty then [] else [String.mk acc.reverse]
  | c :: cs, acc =>
    if c.isWhitespace then
      if acc.isEmpty then splitWsAux cs []
      else String.mk acc.reverse :: splitWsAux cs []
    else splitWsAux cs (c :: acc)

/-! ## Helpers from src/utils/helpers.py -/

/-- Python str.title() restricted to ASCII letters: a letter is uppercased when
the previous character is not a letter and lowercased otherwise. -/
def pyTitleAux : Bool → List Char → List Char
  | _, [] => []
  | prevAlpha, c :: cs =>
    (if c.isAlpha then (if prevAlpha then c.toLower else c.toUpper) else c)
      :: pyTitleAux c.isAlpha cs

/-- Python str.title() on a string. -/
def pyTitle (s : String) : String :=
  String.mk (pyTitleAux false s.data)

/-- Python str.split() with no arguments: split on whitespace runs, dropping
empty pieces. -/
def pySplit (s : String) : List String :=
  splitWsAux s.data []

/-- Cleaning pass of parse_llm_json_response, helpers.py lines 26 to 36: strip,
remove Markdown code-fence wrappers, then remove stray backticks. -/
def clean_llm_content (content : String) : String :=
  let content := pyStrip content
  let content :=
    if pyStartsWith content "```json" then
      pyStrip (pyReplace (pyReplace content "```json" "") "```" "")
    else if pyStartsWith content "```" then
      pyStrip (pyReplace content "```" "")
    else content
  pyReplace content "`" ""

/-- Parts collected by the feedback-flattening loop of helpers.py lines 46 to
51: one part per entry whose value is a string (used verbatim) or a list or
object (serialized with json.dumps); entries with any other value kind
contribute nothing. -/
def feedback_parts (fd : List (String × JValue)) : List String :=
  fd.foldr
    (fun kv acc =>
      match kv.2 with
      | JValue.str s => (pyTitle kv.1 ++ ": " ++ s) :: acc
      | JValue.arr xs => (pyTitle kv.1 ++ ": " ++ dumps (JValue.arr xs)) :: acc
      | JValue.obj o => (pyTitle kv.1 ++ ": " ++ dumps (JValue.obj o)) :: acc
      | _ => acc)
    []

/-- Feedback normalization of helpers.py lines 41 to 53: when the parsed value
is an object whose feedback entry is itself an object, replace that entry in
place by the space-join of the collected parts. -/
def fix_feedback (result : JValue) : JValue :=
  match result with
  | JValue.obj kvs =>
    match alookup kvs "feedback" with
    | some (JValue.obj fd) =>
      JValue.obj (kvs.map fun kv =>
        if kv.1 = "feedback" then
          (kv.1, JValue.str (String.intercalate " " (feedback_parts fd)))
        else kv)
    | _ => result
  | _ => result

/-- parse_llm_json_response from helpers.py, with the standard-library JSON
parser passed in as loads (none models a JSONDecodeError).  Empty content short
circuits to the fallback or the empty object; after cleaning, a parse success
goes through the feedback normalization; a parse failure returns a truthy
fallback and otherwise re-raises (the error branch). -/
def parse_llm_json_response (loads : String → Option JValue) (content : String)
    (fallback : Option (List (String × JValue))) : Except Unit JValue :=
  if content = "" then .ok (JValue.obj (fallback.getD []))
  else
    match loads (clean_llm_content content) with
    | some result => .ok (fix_feedback result)
    | none =>
      match fallback with
      | some fb => if fb.isEmpty then .error () else .ok (JValue.obj fb)
      | none => .error ()

/-! ## Speaker statistics from src/utils/helpers.py -/

/-- Per-speaker accumulator of calculate_speaker_statistics before the
percentage pass. -/
structure PStats where
  segment_count : Nat
  total_duration : ℚ
  word_count : Nat
deriving DecidableEq, Repr

/-- Per-speaker statistics after the percentage pass. -/
structure SpeakerStats where
  segment_count : Nat
  total_duration : ℚ
  word_count : Nat
  duration_percentage : ℚ
deriving DecidableEq, Repr

/-- Aggregate returned by calculate_speaker_statistics. -/
structure SpeakerStatistics where
  total_speakers : Nat
  total_duration : ℚ
  speaker_stats : List (String × SpeakerStats)
deriving DecidableEq, Repr

/-- One iteration of the first loop of calculate_speaker_statistics: ensure the
speaker has an entry, add this segment into it, and raise the running total
duration to the segment end. -/
def statStep (acc : List (String × PStats) × ℚ) (segment : SpeakerSegment) :
    List (String × PStats) × ℚ :=
  let duration := segment.«end» - segment.start
  let wc := (pySplit segment.text).length
  let stats :=
    if (alookup acc.1 segment.speaker).isSome then acc.1
    else acc.1 ++ [(segment.speaker, ⟨0, 0, 0⟩)]
  let stats := stats.map fun kv =>
    if kv.1 = segment.speaker then
      (kv.1, ⟨kv.2.segment_count + 1, kv.2.total_duration + duration, kv.2.word_count + wc⟩)
    else kv
  (stats, max acc.2 segment.«end»)

/-- calculate_speaker_statistics from helpers.py lines 85 to 126: zeroed
aggregate for an empty list, otherwise the two-pass computation (accumulate per
speaker, then attach duration percentages of the running maximum end time). -/
def calculate_speaker_statistics (speakers : List SpeakerSegment) : SpeakerStatistics :=
  if speakers = [] then ⟨0, 0, []⟩
  else
    let acc := speakers.foldl statStep ([], 0)
    let withPct : List (String × SpeakerStats) := acc.1.map fun kv =>
      (kv.1, ⟨kv.2.segment_count, kv.2.total_duration, kv.2.word_count,
              if acc.2 > 0 then kv.2.total_duration / acc.2 * 100 else 0⟩)
    ⟨acc.1.length, acc.2, withPct⟩

/-- Insertion-ordered deduplication, describing the key set growth of a Python
dict populated left to right. -/
def insDedup (acc : List String) (l : List String) : List String :=
  l.foldl (fun ks k => if k ∈ ks then ks else ks ++ [k]) acc

/-! ## Quality scoring agent, src/agents/quality_score_agent.py

The two LLM calls (speaker-aware prompt and plain-transcript prompt) are
abstracted by an environment carrying each call outcome: error for an
exception raised by llm.invoke, ok with the reply content otherwise.  Prompt
construction feeds only the network call and is absorbed into that outcome. -/

/-- Reply cleaning inlined in both LLM agents (quality_score_agent.py lines 114
to 122 and the same code in summarization_agent.py): strip, then remove
Markdown code fences.  Unlike the shared helper it does not remove lone
backticks. -/
def strip_code_fences (content : String) : String :=
  let content := pyStrip content
  if pyStartsWith content "```json" then
    pyStrip (pyReplace (pyReplace content "```json" "") "```" "")
  else if pyStartsWith content "```" then
    pyStrip (pyReplace content "```" "")
  else content

/-- Pydantic construction QualityScore(**quality_dict): the parsed JSON must be
an object carrying numeric scores within the Field bounds 1 to 10 and a string
feedback; any other shape raises a validation error, the error branch here.
Numeric fields are taken as JSON numbers; the lax numeric-string coercion of
pydantic is not modelled, which only widens the validation-failure case. -/
def mkQualityScore (j : JValue) : Except Unit QualityScore :=
  match j with
  | JValue.obj kvs =>
    match alookup kvs "tone_score", alookup kvs "professionalism_score",
          alookup kvs "resolution_score", alookup kvs "feedback" with
    | some (JValue.num t), some (JValue.num p), some (JValue.num r),
      some (JValue.str f) =>
      if 1 ≤ t ∧ t ≤ 10 ∧ 1 ≤ p ∧ p ≤ 10 ∧ 1 ≤ r ∧ r ≤ 10 then
        .ok ⟨t, p, r, f⟩
      else .error ()
    | _, _, _, _ => .error ()
  | _ => .error ()

/-- The fixed fallback returned by the evaluate_quality except branches,
quality_score_agent.py lines 131 to 136 and 140 to 145. -/
def fallback_quality_score : QualityScore :=
  ⟨5, 5, 5, "Unable to evaluate quality due to processing error."⟩

/-- Outcomes of the two possible LLM calls of the quality agent. -/
structure QualityEnv where
  llm_speakers : Except String String
  llm_transcript : Except String String
deriving Repr

/-- evaluate_quality (underscore-prefixed in the source), the plain-transcript
path: an llm.invoke failure, a JSON decode failure or a QualityScore validation
failure each yield the fixed fallback score; a fully valid reply yields the
parsed score. -/
def evaluate_quality (loads : String → Option JValue)
    (llm : Except String String) : QualityScore :=
  match llm with
  | .error _ => fallback_quality_score
  | .ok raw =>
    match loads (strip_code_fences raw) with
    | none => fallback_quality_score
    | some j =>
      match mkQualityScore j with
      | .ok q => q
      | .error _ => fallback_quality_score

/-- evaluate_quality_with_speakers: any failure of the speaker-aware attempt
falls back to a full run of the plain-transcript path. -/
def evaluate_quality_with_speakers (loads : String → Option JValue)
    (env : QualityEnv) : QualityScore :=
  match env.llm_speakers with
  | .error _ => evaluate_quality loads env.llm_transcript
  | .ok raw =>
    match loads (strip_code_fences raw) with
    | none => evaluate_quality loads env.llm_transcript
    | some j =>
      match mkQualityScore j with
      | .ok q => q
      | .error _ => evaluate_quality loads env.llm_transcript

/-- QualityScoringAgent.process: record an error when no data is available,
otherwise evaluate (speaker-aware when segments exist) and assign
state.quality_score.  The evaluation functions are total, so the except branch
of process is unreachable and no error is ever appended on the data-present
paths. -/
def quality_process (loads : String → Option JValue) (env : QualityEnv)
    (state : AgentState) (now : String) : AgentState :=
  if pyFalsyStr state.transcript_text && state.speakers.isEmpty then
    state.add_error "quality_scoring" "No transcript or speaker data available" now
  else if !state.speakers.isEmpty then
    { state with quality_score := some (evaluate_quality_with_speakers loads env) }
  else
    { state with quality_score := some (evaluate_quality loads env.llm_transcript) }

/-! ## Summarization agent, src/agents/summarization_agent.py -/

/-- A Python exception escaping a call in the embedding. -/
inductive PyExc where
  | attributeError (msg : String)
deriving DecidableEq, Repr

/-- Pydantic construction CallSummary(**summary_dict): requires a string
summary, a list of string key points, and Literal sentiment and outcome
values. -/
def mkCallSummary (j : JValue) : Except Unit CallSummary :=
  match j with
  | JValue.obj kvs =>
    match alookup kvs "summary", alookup kvs "key_points",
          alookup kvs "sentiment", alookup kvs "outcome" with
    | some (JValue.str s), some (JValue.arr kps),
      some (JValue.str sent), some (JValue.str out) =>
      match kps.mapM (fun v => match v with | JValue.str k => some k | _ => none) with
      | some points =>
        if (sent ∈ ["positive", "neutral", "negative"]) ∧
           (out ∈ ["resolved", "escalated", "follow_up", "unresolved"]) then
          .ok ⟨s, points, sent, out⟩
        else .error ()
      | none => .error ()
    | _, _, _, _ => .error ()
  | _ => .error ()

/-- The fixed fallback summary of the generate_summary except branches,
summarization_agent.py lines 98 to 103 and 107 to 112. -/
def fallback_call_summary : CallSummary :=
  ⟨"Call transcript processed.", ["Call completed"], "neutral", "unresolved"⟩

/-- Outcomes of the two possible LLM calls of the summarization agent. -/
structure SummEnv where
  llm_speakers : Except String String
  llm_transcript : Except String String
deriving Repr

/-- generate_summary (underscore-prefixed), the plain-transcript path: every
internal failure yields the fixed fallback summary. -/
def generate_summary (loads : String → Option JValue)
    (llm : Except String String) : CallSummary :=
  match llm with
  | .error _ => fallback_call_summary
  | .ok raw =>
    match loads (strip_code_fences raw) with
    | none => fallback_call_summary
    | some j =>
      match mkCallSummary j with
      | .ok c => c
      | .error _ => fallback_call_summary

/-- generate_summary_with_speakers: any failure of the speaker-aware attempt
re-runs the plain-transcript path. -/
def generate_summary_with_speakers (loads : String → Option JValue)
    (env : SummEnv) : CallSummary :=
  match env.llm_speakers with
  | .error _ => generate_summary loads env.llm_transcript
  | .ok raw =>
    match loads (strip_code_fences raw) with
    | none => generate_summary loads env.llm_transcript
    | some j =>
      match mkCallSummary j with
      | .ok c => c
      | .error _ => generate_summary loads env.llm_transcript

/-- SummarizationAgent.process as written in the source.  SummarizationAgent
does not inherit BaseAgent, yet process calls self.log_success after computing
the summary and self.handle_error in its except clause; neither attribute
exists on the class.  On the no-data path the method returns normally after
recording an error.  On every data-carrying path the try block computes a
summary (the generators are total), then the self.log_success lookup raises
AttributeError before state.summary is assigned; the except clause then looks
up self.handle_error, and that AttributeError escapes process.  The computed
summary is bound and discarded below exactly as the source discards it. -/
def summarization_process (loads : String → Option JValue) (env : SummEnv)
    (state : AgentState) (now : String) : Except PyExc AgentState :=
  if pyFalsyStr state.transcript_text && state.speakers.isEmpty then
    .ok (state.add_error "summarization" "No transcript or speaker data available" now)
  else
    let _ :=
      if !state.speakers.isEmpty then generate_summary_with_speakers loads env
      else generate_summary loads env.llm_transcript
    .error (.attributeError
      "SummarizationAgent object has no attribute handle_error")

/-! ## Transcription agent, src/agents/transcription_agent.py

The Deepgram response is modelled by the part of its shape the code navigates
(results, channels, alternatives, transcript, diarized words), with absent
attributes as none or an empty list, matching the hasattr-and-truthiness
guards.  The Deepgram and Whisper network calls are outcomes in an
environment. -/

/-- One word of a diarized Deepgram response. -/
structure DeepgramWord where
  speaker : Nat
  word : String
  start : ℚ
  «end» : ℚ
  confidence : Option ℚ
deriving DecidableEq, Repr

/-- One alternative of a Deepgram channel. -/
structure DGAlternative where
  transcript : Option String
  words : List DeepgramWord
deriving DecidableEq, Repr

/-- One audio channel of a Deepgram response. -/
structure DGChannel where
  alternatives : List DGAlternative
deriving DecidableEq, Repr

/-- The results object of a Deepgram response. -/
structure DGResults where
  channels : List DGChannel
deriving DecidableEq, Repr

/-- A Deepgram response as navigated by the agent. -/
structure DeepgramResponse where
  results : Option DGResults
deriving DecidableEq, Repr

/-- Transcript extraction, transcription_agent.py lines 105 to 110: the best
alternative of the first channel, empty when any level is missing or falsy. -/
def extract_transcript (response : DeepgramResponse) : String :=
  match response.results with
  | none => ""
  | some rs =>
    match rs.channels with
    | [] => ""
    | ch :: _ =>
      match ch.alternatives with
      | [] => ""
      | alt :: _ => alt.transcript.getD ""

/-- Accumulator of the word-grouping loop of parse_speaker_segments. -/
structure GroupAcc where
  segments : List SpeakerSegment
  speaker : Nat
  text : String
  start : ℚ
  stop : ℚ
deriving DecidableEq, Repr

/-- The word-grouping loop, transcription_agent.py lines 183 to 215: extend the
current run while the speaker index repeats; on a change, emit the finished
segment (when its stripped text is nonempty) with the confidence of the word
that triggered the change, defaulting to 0.9. -/
def group_words_aux (acc : GroupAcc) : List DeepgramWord → GroupAcc
  | [] => acc
  | w :: ws =>
    if w.speaker = acc.speaker then
      group_words_aux { acc with text := acc.text ++ " " ++ w.word, stop := w.«end» } ws
    else
      let segments :=
        if pyStrip acc.text ≠ "" then
          acc.segments ++
            [⟨"Speaker " ++ toString acc.speaker, pyStrip acc.text, acc.start, acc.stop,
              w.confidence.getD (9/10)⟩]
        else acc.segments
      group_words_aux ⟨segments, w.speaker, w.word, w.start, w.«end»⟩ ws

/-- parse_speaker_segments (underscore-prefixed), lines 148 to 232: navigate to
the diarized words of the first alternative (empty on any missing level), group
consecutive words by speaker, and emit the final run (when nonempty and
nonblank) with the confidence of the last word. -/
def parse_speaker_segments (response : DeepgramResponse) : List SpeakerSegment :=
  match response.results with
  | none => []
  | some rs =>
    match rs.channels with
    | [] => []
    | ch :: _ =>
      match ch.alternatives with
      | [] => []
      | alt :: _ =>
        match alt.words with
        | [] => []
        | w :: ws =>
          let acc := group_words_aux ⟨[], w.speaker, w.word, w.start, w.«end»⟩ ws
          let lastWord := (w :: ws).getLast (by simp)
          if acc.text ≠ "" ∧ pyStrip acc.text ≠ "" then
            acc.segments ++
              [⟨"Speaker " ++ toString acc.speaker, pyStrip acc.text, acc.start, acc.stop,
                lastWord.confidence.getD (9/10)⟩]
          else acc.segments

/-- Outcomes of the external calls the transcription agent can make. -/
structure TranscriptionEnv where
  deepgram : Except String DeepgramResponse
  openai_available : Bool
  whisper : Except String String
deriving Repr

/-- transcribe_with_diarization (underscore-prefixed), lines 63 to 146.  On a
Deepgram success with a nonempty transcript, parse diarized segments and, when
none were parsed, synthesize a single segment labeled Speaker 0 spanning 0 to
10 seconds with confidence 0.9; with an empty transcript return it with no
segments.  When the Deepgram call raises: with an OpenAI client configured,
run Whisper and return its plain transcript with an empty segment list (no
segment is synthesized on this path); otherwise re-raise. -/
def transcribe_with_diarization (env : TranscriptionEnv) :
    Except String (String × List SpeakerSegment) :=
  match env.deepgram with
  | .ok response =>
    let transcript_text := extract_transcript response
    if transcript_text ≠ "" then
      let segs := parse_speaker_segments response
      let segs :=
        if segs.isEmpty then [⟨"Speaker 0", transcript_text, 0, 10, 9/10⟩] else segs
      .ok (transcript_text, segs)
    else
      .ok ("", [])
  | .error e =>
    if env.openai_available then
      match env.whisper with
      | .ok transcript => .ok (transcript, [])
      | .error fe => .error fe
    else .error e

/-- TranscriptionAgent.process, lines 32 to 61: pass text input through; on
audio, transcribe with diarization, and on failure record a transcription
error, then attempt the Whisper fallback when available, recording a
transcription_fallback error when that also fails. -/
def transcription_process (env : TranscriptionEnv) (state : AgentState)
    (now : String) : AgentState :=
  if state.input_data.input_type ≠ InputType.AUDIO then
    match state.input_data.content with
    | Content.text s => { state with transcript_text := some s }
    | _ => state
  else
    match transcribe_with_diarization env with
    | .ok (t, segs) => { state with transcript_text := some t, speakers := segs }
    | .error e =>
      let state := state.add_error "transcription" e now
      if env.openai_available then
        match env.whisper with
        | .ok t => { state with transcript_text := some t }
        | .error fe => state.add_error "transcription_fallback" fe now
      else state

/-! ## Association-list lemmas -/

theorem alookup_append {α : Type} (l m : List (String × α)) (k : String) :
    alookup (l ++ m) k =
      match alookup l k with
      | some v => some v
      | none => alookup m k := by
  induction l with
  | nil => rfl
  | cons hd tl ih =>
    obtain ⟨k₀, v₀⟩ := hd
    by_cases h : k₀ = k <;> simp [alookup, h, ih]

theorem alookup_aset {α : Type} (l : List (String × α)) (k : String) (v : α) :
    alookup (aset l k v) k = some v := by
  induction l with
  | nil => simp [aset, alookup]
  | cons hd tl ih =>
    obtain ⟨k₀, v₀⟩ := hd
    by_cases h : k₀ = k <;> simp [aset, alookup, h, ih]

theorem alookup_map_val {α β : Type} (l : List (String × α)) (g : String → α → β)
    (k : String) :
    alookup (l.map fun kv => (kv.1, g kv.1 kv.2)) k = (alookup l k).map (g k) := by
  induction l with
  | nil => rfl
  | cons hd tl ih =>
    obtain ⟨k₀, v₀⟩ := hd
    by_cases h : k₀ = k
    · subst h; simp [alookup]
    · simp [alookup, h, ih]

theorem alookup_map_upd {α : Type} (l : List (String × α)) (k k' : String)
    (f : α → α) :
    alookup (l.map fun kv => if kv.1 = k then (kv.1, f kv.2) else kv) k' =
      if k = k' then (alookup l k').map f else alookup l k' := by
  induction l with
  | nil => by_cases h : k = k' <;> simp [alookup, h]
  | cons hd tl ih =>
    obtain ⟨k₀, v₀⟩ := hd
    simp only [List.map_cons]
    by_cases hk : k₀ = k
    · subst hk
      rw [if_pos rfl]
      by_cases hk' : k₀ = k'
      · subst hk'
        simp [alookup]
      · rw [if_neg hk']
        simp [alookup, hk', ih]
    · rw [if_neg hk]
      by_cases hk' : k₀ = k'
      · subst hk'
        have hne : ¬ k = k₀ := fun h => hk h.symm
        rw [if_neg hne]
        simp [alookup]
      · simp [alookup, hk', ih]

theorem alookup_isSome_iff_mem {α : Type} (l : List (String × α)) (k : String) :
    (alookup l k).isSome = true ↔ k ∈ l.map Prod.fst := by
  induction l with
  | nil => simp [alookup]
  | cons hd tl ih =>
    obtain ⟨k₀, v₀⟩ := hd
    by_cases h : k₀ = k
    · subst h; simp [alookup]
    · have hne : ¬ k = k₀ := fun hh => h hh.symm
      simp [alookup, h, hne, ih]

/-! ## Lemmas about the speaker-statistics fold -/

/-- Pointwise sum of two accumulators. -/
def addP (p q : PStats) : PStats :=
  ⟨p.segment_count + q.segment_count, p.total_duration + q.total_duration,
   p.word_count + q.word_count⟩

/-- Contribution of a single segment. -/
def segPStats (s : SpeakerSegment) : PStats :=
  ⟨1, s.«end» - s.start, (pySplit s.text).length⟩

/-- Aggregate contribution of a list of segments. -/
def pAgg (l : List SpeakerSegment) : PStats :=
  ⟨l.length, (l.map fun s => s.«end» - s.start).sum,
   (l.map fun s => (pySplit s.text).length).sum⟩

theorem addP_zero_right (p : PStats) : addP p ⟨0, 0, 0⟩ = p := by
  simp [addP]

theorem addP_zero_left (q : PStats) : addP ⟨0, 0, 0⟩ q = q := by
  simp [addP]

theorem addP_assoc (p q r : PStats) : addP (addP p q) r = addP p (addP q r) := by
  simp [addP, add_assoc]

theorem pAgg_nil : pAgg [] = ⟨0, 0, 0⟩ := rfl

theorem pAgg_cons (s : SpeakerSegment) (l : List SpeakerSegment) :
    pAgg (s :: l) = addP (segPStats s) (pAgg l) := by
  simp [pAgg, segPStats, addP, Nat.add_comm, add_comm]

/-- The per-segment increment applied inside statStep. -/
def incrP (seg : SpeakerSegment) (p : PStats) : PStats :=
  ⟨p.segment_count + 1, p.total_duration + (seg.«end» - seg.start),
   p.word_count + (pySplit seg.text).length⟩

theorem statStep_fst_eq (st : List (String × PStats)) (t : ℚ) (seg : SpeakerSegment) :
    (statStep (st, t) seg).1 =
      ((if (alookup st seg.speaker).isSome = true then st
        else st ++ [(seg.speaker, ⟨0, 0, 0⟩)]).map
        fun kv => if kv.1 = seg.speaker then (kv.1, incrP seg kv.2) else kv) := rfl

theorem statStep_snd_eq (st : List (String × PStats)) (t : ℚ) (seg : SpeakerSegment) :
    (statStep (st, t) seg).2 = max t seg.«end» := rfl

theorem incrP_eq_addP (seg : SpeakerSegment) (p : PStats) :
    incrP seg p = addP p (segPStats seg) := rfl

/-- Combined lookup of a base entry with the aggregate of further segments. -/
def olookup (o : Option PStats) (l : List SpeakerSegment) : Option PStats :=
  match o with
  | some p => some (addP p (pAgg l))
  | none => if l = [] then none else some (pAgg l)

theorem statStep_lookup (st : List (String × PStats)) (t : ℚ) (seg : SpeakerSegment)
    (sp : String) :
    alookup (statStep (st, t) seg).1 sp =
      if seg.speaker = sp then
        some (addP ((alookup st sp).getD ⟨0, 0, 0⟩) (segPStats seg))
      else alookup st sp := by
  rw [statStep_fst_eq, alookup_map_upd]
  by_cases h : seg.speaker = sp
  · subst h
    rw [if_pos rfl]
    cases hl : alookup st seg.speaker with
    | some p =>
      rw [if_pos (by simp), hl]
      simp [incrP_eq_addP]
    | none =>
      rw [if_neg (by simp)]
      rw [alookup_append, hl]
      simp [alookup, incrP_eq_addP]
  · simp only [if_neg h]
    by_cases hs : (alookup st seg.speaker).isSome = true
    · rw [if_pos hs]
    · rw [if_neg hs]
      rw [alookup_append]
      cases hl : alookup st sp with
      | some p => simp
      | none => simp [alookup, h]

theorem foldl_statStep_lookup (l : List SpeakerSegment) :
    ∀ (st : List (String × PStats)) (t : ℚ) (sp : String),
      alookup (l.foldl statStep (st, t)).1 sp =
        olookup (alookup st sp) (l.filter fun s => s.speaker = sp) := by
  induction l with
  | nil =>
    intro st t sp
    simp only [List.foldl_nil, List.filter_nil, olookup]
    cases hl : alookup st sp with
    | some p => simp [addP_zero_right, pAgg_nil]
    | none => simp
  | cons s l ih =>
    intro st t sp
    rw [List.foldl_cons]
    rw [show statStep (st, t) s = ((statStep (st, t) s).1, (statStep (st, t) s).2) from rfl]
    rw [ih]
    rw [statStep_lookup]
    by_cases h : s.speaker = sp
    · rw [if_pos h, List.filter_cons_of_pos (by simpa using h)]
      cases hl : alookup st sp with
      | some p => simp [olookup, pAgg_cons, addP_assoc]
      | none => simp [olookup, pAgg_cons, addP_zero_left]
    · rw [if_neg h, List.filter_cons_of_neg (by simpa using h)]

theorem foldl_statStep_snd (l : List SpeakerSegment) :
    ∀ (st : List (String × PStats)) (t : ℚ),
      (l.foldl statStep (st, t)).2 = l.foldl (fun a s => max a s.«end») t := by
  induction l with
  | nil => intro st t; rfl
  | cons s l ih =>
    intro st t
    rw [List.foldl_cons, List.foldl_cons]
    rw [show statStep (st, t) s = ((statStep (st, t) s).1, (statStep (st, t) s).2) from rfl]
    rw [ih, statStep_snd_eq]

theorem map_fst_upd {α : Type} (l : List (String × α)) (k : String) (f : α → α) :
    (l.map fun kv => if kv.1 = k then (kv.1, f kv.2) else kv).map Prod.fst =
      l.map Prod.fst := by
  rw [List.map_map]
  refine List.map_congr_left ?_
  intro kv _
  by_cases h : kv.1 = k <;> simp [h]

theorem statStep_keys (st : List (String × PStats)) (t : ℚ) (seg : SpeakerSegment) :
    (statStep (st, t) seg).1.map Prod.fst =
      if seg.speaker ∈ st.map Prod.fst then st.map Prod.fst
      else st.map Prod.fst ++ [seg.speaker] := by
  rw [statStep_fst_eq, map_fst_upd]
  by_cases hs : (alookup st seg.speaker).isSome = true
  · rw [if_pos hs, if_pos ((alookup_isSome_iff_mem st seg.speaker).1 hs)]
  · rw [if_neg hs, if_neg (fun hmem => hs ((alookup_isSome_iff_mem st seg.speaker).2 hmem))]
    simp

theorem foldl_statStep_keys (l : List SpeakerSegment) :
    ∀ (st : List (String × PStats)) (t : ℚ),
      (l.foldl statStep (st, t)).1.map Prod.fst =
        insDedup (st.map Prod.fst) (l.map SpeakerSegment.speaker) := by
  induction l with
  | nil => intro st t; rfl
  | cons s l ih =>
    intro st t
    rw [List.foldl_cons]
    rw [show statStep (st, t) s = ((statStep (st, t) s).1, (statStep (st, t) s).2) from rfl]
    rw [ih]
    rw [statStep_keys]
    simp only [insDedup, List.map_cons, List.foldl_cons]

/-- Percentage pass of calculate_speaker_statistics applied to one entry. -/
def pctStats (total : ℚ) (p : PStats) : SpeakerStats :=
  ⟨p.segment_count, p.total_duration, p.word_count,
   if total > 0 then p.total_duration / total * 100 else 0⟩

theorem calc_stats_cons (s : SpeakerSegment) (l : List SpeakerSegment) :
    calculate_speaker_statistics (s :: l) =
      ⟨((s :: l).foldl statStep ([], 0)).1.length,
       ((s :: l).foldl statStep ([], 0)).2,
       ((s :: l).foldl statStep ([], 0)).1.map fun kv =>
         (kv.1, pctStats ((s :: l).foldl statStep ([], 0)).2 kv.2)⟩ := by
  unfold calculate_speaker_statistics
  rw [if_neg (by simp)]
  rfl

/-! ## Concrete fixtures used by the claim theorems -/

/-- Pipeline state carrying only transcript text, used to exercise the LLM
agents on the transcript-only path. -/
def transcriptOnlyState : AgentState :=
  { call_id := "abc12345"
    input_data := { input_type := InputType.TRANSCRIPT,
                    content := Content.text "hello world", file_name := some "call.txt" }
    transcript_text := some "hello world"
    speakers := []
    summary := none
    quality_score := none
    errors := []
    retry_counts := [] }

/-- State after one recorded transcription error and one recorded retry,
exercising the retry decisions. -/
def oneRetryState : AgentState :=
  { call_id := "c3"
    input_data := { input_type := InputType.AUDIO,
                    content := Content.bytes [1, 2, 3], file_name := none }
    transcript_text := none
    speakers := []
    summary := none
    quality_score := none
    errors := [⟨"transcription", "boom", "2024-01-01T00:00:00"⟩]
    retry_counts := [("transcription", 1)] }

/-- State with a fresh, unaccounted transcription error and no retries yet. -/
def freshErrorState : AgentState :=
  { oneRetryState with retry_counts := [] }

/-- Environment in which the Deepgram call raises and the Whisper fallback is
configured and succeeds. -/
def fallbackEnv : TranscriptionEnv :=
  { deepgram := .error "deepgram down", openai_available := true,
    whisper := .ok "hello world" }

/-- JSON parser stub returning a structured-feedback object for the fixed
reply text used in the C7 fixtures. -/
def structuredFeedbackLoads : String → Option JValue := fun s =>
  if s = "x" then some (JValue.obj [("feedback", JValue.obj [("n", JValue.num 1)])])
  else none

/-- Spec example segments for the speaker statistics: Speaker 0 from 0 to 5,
Speaker 1 from 5 to 8, Speaker 0 again from 8 to 10. -/
def exampleSegs : List SpeakerSegment :=
  [⟨"Speaker 0", "hello there", 0, 5, 9/10⟩,
   ⟨"Speaker 1", "hi", 5, 8, 9/10⟩,
   ⟨"Speaker 0", "bye", 8, 10, 9/10⟩]

/-- Unsorted segments whose maximum end time is not the last end time. -/
def unsortedSegs : List SpeakerSegment :=
  [⟨"Speaker 0", "hi there", 0, 10, 1⟩, ⟨"Speaker 1", "ok", 3, 5, 1⟩]

/-! ## Claim theorems -/

/-- Claim C1 (code_bug evidence): src/utils/validation.py defines no
SpeakerSegment class and its AgentState declares no speakers field, even though
src/agents/transcription_agent.py line 13 imports SpeakerSegment from
utils.validation (and later assigns state.speakers); the claimed data model is
absent from the module that is supposed to define it. -/
theorem C1_validation_omits_speaker_model :
    "SpeakerSegment" ∉ validation_py_classes ∧
    "speakers" ∉ validation_py_agentstate_fields ∧
    "SpeakerSegment" ∈ transcription_agent_validation_imports := by
  decide

/-- Claim C2 (code_bug evidence): on a state carrying transcript text, the
embedded SummarizationAgent.process raises AttributeError (self.handle_error is
looked up on a class that never defines it) instead of returning the state; in
particular no state with state.summary set and no summarization error record is
ever produced by the data-carrying paths. -/
theorem C2_summarization_process_raises :
    summarization_process (fun _ => none) ⟨.ok "reply", .ok "reply"⟩
        transcriptOnlyState "2024-01-01T00:00:00" =
      .error (.attributeError
        "SummarizationAgent object has no attribute handle_error") ∧
    transcriptOnlyState.transcript_text = some "hello world" := by
  exact ⟨rfl, rfl⟩

/-- Claim C5 (code_bug evidence): the except branch of process_call in
src/workflow.py returns a failed result whose single synthetic error record is
attributed to the misspelled agent string worflow, which differs from the
workflow literal the claim states (src/workflow_refactored.py spells it
correctly). -/
theorem C5_workflow_error_agent_typo :
    (workflow_exception_result "boom" 0 "t").status = "failed" ∧
    (workflow_exception_result "boom" 0 "t").errors.map ErrorRecord.agent = ["worflow"] ∧
    (workflow_exception_result_refactored "boom" 0 "t").errors.map ErrorRecord.agent
      = ["workflow"] ∧
    ("worflow" : String) ≠ "workflow" := by
  refine ⟨rfl, rfl, rfl, by decide⟩

/-- Claim C9: in both workflow files, the top-level exception handler builds the
failed ProcessingResult with the fixed call_id literal error (independent of the
generated per-call identifier, which is not in scope of the handler inputs) and
a single synthetic error record whose timestamp field is the empty string. -/
theorem C9_error_result_fixed_fields (msg : String) (elapsed : ℚ) (now : String) :
    (workflow_exception_result msg elapsed now).call_id = "error" ∧
    (workflow_exception_result msg elapsed now).errors.map ErrorRecord.timestamp = [""] ∧
    (workflow_exception_result msg elapsed now).errors.length = 1 ∧
    (workflow_exception_result_refactored msg elapsed now).call_id = "error" ∧
    (workflow_exception_result_refactored msg elapsed now).errors.map
      ErrorRecord.timestamp = [""] ∧
    (workflow_exception_result_refactored msg elapsed now).errors.length = 1 := by
  exact ⟨rfl, rfl, rfl, rfl, rfl, rfl⟩

/-- Claim C6 counterexample: with the Deepgram call raising, the Whisper
fallback configured and succeeding with transcript hello world, the
transcription step returns that transcript with an empty speaker-segment list,
not with the single synthesized Speaker 1 segment the claim states. -/
theorem C6_counterexample_no_synthesized_segment :
    transcribe_with_diarization fallbackEnv = .ok ("hello world", []) ∧
    ([] : List SpeakerSegment) ≠ [⟨"Speaker 1", "hello world", 0, 10, 9/10⟩] := by
  refine ⟨rfl, by decide⟩

/-- Claim C6 amended: for every AUDIO input, when the diarization provider call
raises and a fallback transcription provider key is configured and the fallback
transcription succeeds, the transcription step returns the fallback plain
transcript together with an empty list of speaker segments (no SpeakerSegment
is synthesized on this path). -/
theorem C6_amended_fallback_empty_segments (env : TranscriptionEnv) (e t : String)
    (hd : env.deepgram = .error e) (ho : env.openai_available = true)
    (hw : env.whisper = .ok t) :
    transcribe_with_diarization env = .ok (t, []) := by
  unfold transcribe_with_diarization
  rw [hd]
  simp [ho, hw]

/-- Witness for the amended C6 theorem at the concrete fallback environment. -/
theorem C6_amended_witness :
    transcribe_with_diarization fallbackEnv = .ok ("hello world", []) :=
  C6_amended_fallback_empty_segments fallbackEnv "deepgram down" "hello world"
    rfl rfl rfl

/-! ## Helper lemmas for the retry decisions -/

theorem should_retry_true_iff (state : AgentState) (a : String) (m : Nat) :
    (should_retry state a m).1 = true ↔
      (countAgentErrors state.errors a > adefault state.retry_counts a 0 ∧
       adefault state.retry_counts a 0 < m) := by
  by_cases h : (countAgentErrors state.errors a > adefault state.retry_counts a 0 ∧
      adefault state.retry_counts a 0 < m) <;>
    simp [should_retry, h]

theorem should_retry_refactored_true_iff (state : AgentState) (a : String)
    (mr : Option Nat) :
    (should_retry_refactored state a mr).1 = true ↔
      (countAgentErrors state.errors a ≠ 0 ∧
       adefault state.retry_counts a 0 < resolveMaxRetries mr) := by
  by_cases h : (countAgentErrors state.errors a ≠ 0 ∧
      adefault state.retry_counts a 0 < resolveMaxRetries mr) <;>
    simp [should_retry_refactored, h]

theorem should_retry_increments (state : AgentState) (a : String) (m : Nat)
    (h : (should_retry state a m).1 = true) :
    adefault ((should_retry state a m).2).retry_counts a 0 =
      adefault state.retry_counts a 0 + 1 ∧
    adefault ((should_retry state a m).2).retry_counts a 0 ≤ m := by
  obtain ⟨hc1, hc2⟩ := (should_retry_true_iff state a m).1 h
  have e1 : should_retry state a m =
      (true, { state with
               retry_counts := aset state.retry_counts a (adefault state.retry_counts a 0 + 1) }) := by
    simp only [should_retry]
    rw [if_pos ⟨hc1, hc2⟩]
  rw [e1]
  refine ⟨by simp [adefault, alookup_aset], ?_⟩
  simp only [adefault, alookup_aset, adefault] at hc2 ⊢
  simp only [Option.getD_some]
  omega

theorem should_retry_false_id (state : AgentState) (a : String) (m : Nat)
    (h : (should_retry state a m).1 = false) :
    (should_retry state a m).2 = state := by
  by_cases hc : (countAgentErrors state.errors a > adefault state.retry_counts a 0 ∧
      adefault state.retry_counts a 0 < m)
  · simp [should_retry, hc] at h
  · simp [should_retry, hc]

theorem should_retry_refactored_increments (state : AgentState) (a : String)
    (mr : Option Nat)
    (h : (should_retry_refactored state a mr).1 = true) :
    adefault ((should_retry_refactored state a mr).2).retry_counts a 0 =
      adefault state.retry_counts a 0 + 1 ∧
    adefault ((should_retry_refactored state a mr).2).retry_counts a 0 ≤
      resolveMaxRetries mr := by
  obtain ⟨hc1, hc2⟩ := (should_retry_refactored_true_iff state a mr).1 h
  have e1 : should_retry_refactored state a mr =
      (true, { state with
               retry_counts := aset state.retry_counts a (adefault state.retry_counts a 0 + 1) }) := by
    simp only [should_retry_refactored]
    rw [if_pos ⟨hc1, hc2⟩]
  rw [e1]
  refine ⟨by simp [adefault, alookup_aset], ?_⟩
  simp only [adefault, alookup_aset, adefault] at hc2 ⊢
  simp only [Option.getD_some]
  omega

theorem should_retry_refactored_false_id (state : AgentState) (a : String)
    (mr : Option Nat)
    (h : (should_retry_refactored state a mr).1 = false) :
    (should_retry_refactored state a mr).2 = state := by
  by_cases hc : (countAgentErrors state.errors a ≠ 0 ∧
      adefault state.retry_counts a 0 < resolveMaxRetries mr)
  · simp [should_retry_refactored, hc] at h
  · simp [should_retry_refactored, hc]

/-- Claim C3 counterexample: in the state with one recorded transcription error
already accounted for by one recorded retry, the retry decision of
src/workflow_refactored.py returns true (and would re-invoke the agent) even
though the error count does not exceed the recorded retry count, refuting the
claimed exact characterization for that orchestrator. -/
theorem C3_counterexample_refactored_retries_old_error :
    (should_retry_refactored oneRetryState "transcription" (some 2)).1 = true ∧
    ¬ (countAgentErrors oneRetryState.errors "transcription" >
        adefault oneRetryState.retry_counts "transcription" 0) := by
  refine ⟨by decide, by decide⟩

/-- Claim C3 amended: the retry decision of src/workflow.py returns true exactly
when the number of error records attributed to the agent exceeds the recorded
retry count and that count is below max_retries, while the decision of
src/workflow_refactored.py returns true exactly when at least one error record
for the agent exists (new or already accounted for) and the recorded count is
below the resolved max_retries; both increment retry_counts by one exactly when
they return true (leaving the state unchanged otherwise), and the incremented
count never exceeds the respective bound, so each agent is re-invoked at most
max_retries times beyond its initial attempt. -/
theorem C3_amended_retry_decisions (state : AgentState) (agent_name : String)
    (m : Nat) :
    ((should_retry state agent_name m).1 = true ↔
      (countAgentErrors state.errors agent_name >
        adefault state.retry_counts agent_name 0 ∧
       adefault state.retry_counts agent_name 0 < m)) ∧
    ((should_retry_refactored state agent_name (some m)).1 = true ↔
      (countAgentErrors state.errors agent_name ≠ 0 ∧
       adefault state.retry_counts agent_name 0 < resolveMaxRetries (some m))) ∧
    ((should_retry state agent_name m).1 = true →
      adefault ((should_retry state agent_name m).2).retry_counts agent_name 0 =
        adefault state.retry_counts agent_name 0 + 1 ∧
      adefault ((should_retry state agent_name m).2).retry_counts agent_name 0 ≤ m) ∧
    ((should_retry state agent_name m).1 = false →
      (should_retry state agent_name m).2 = state) ∧
    ((should_retry_refactored state agent_name (some m)).1 = true →
      adefault ((should_retry_refactored state agent_name (some m)).2).retry_counts
          agent_name 0 =
        adefault state.retry_counts agent_name 0 + 1 ∧
      adefault ((should_retry_refactored state agent_name (some m)).2).retry_counts
          agent_name 0 ≤ resolveMaxRetries (some m)) ∧
    ((should_retry_refactored state agent_name (some m)).1 = false →
      (should_retry_refactored state agent_name (some m)).2 = state) :=
  ⟨should_retry_true_iff state agent_name m,
   should_retry_refactored_true_iff state agent_name (some m),
   should_retry_increments state agent_name m,
   should_retry_false_id state agent_name m,
   should_retry_refactored_increments state agent_name (some m),
   should_retry_refactored_false_id state agent_name (some m)⟩

/-- Witness for the amended C3 theorem: on a fresh unaccounted error with zero
recorded retries and a bound of 2, the decision retries and the recorded count
becomes one. -/
theorem C3_amended_witness :
    (should_retry freshErrorState "transcription" 2).1 = true ∧
    adefault ((should_retry freshErrorState "transcription" 2).2).retry_counts
      "transcription" 0 =
      adefault freshErrorState.retry_counts "transcription" 0 + 1 := by
  have h := C3_amended_retry_decisions freshErrorState "transcription" 2
  have ht : (should_retry freshErrorState "transcription" 2).1 = true :=
    (h.1).mpr (by decide)
  exact ⟨ht, (h.2.2.1 ht).1⟩

/-- Claim C4: both orchestrators classify a terminal state as success exactly
when summary and quality score are both present and the errors list is empty,
as partial exactly when that fails but at least one of the two is present
(regardless of errors), and as failed exactly when neither is present; and the
inline classification of src/workflow.py agrees with determine_status of
src/workflow_refactored.py. -/
theorem C4_status_classification (state : AgentState) :
    (determine_status state = "success" ↔
      state.summary.isSome ∧ state.quality_score.isSome ∧ state.errors = []) ∧
    (determine_status state = "partial" ↔
      ¬ (state.summary.isSome ∧ state.quality_score.isSome ∧ state.errors = []) ∧
      (state.summary.isSome ∨ state.quality_score.isSome)) ∧
    (determine_status state = "failed" ↔
      state.summary = none ∧ state.quality_score = none) ∧
    workflow_status state.summary state.quality_score state.errors =
      determine_status state := by
  have hsp : ("success" : String) ≠ "partial" := by decide
  have hsf : ("success" : String) ≠ "failed" := by decide
  have hps : ("partial" : String) ≠ "success" := by decide
  have hpf : ("partial" : String) ≠ "failed" := by decide
  have hfs : ("failed" : String) ≠ "success" := by decide
  have hfp : ("failed" : String) ≠ "partial" := by decide
  refine ⟨?_, ?_, ?_, rfl⟩ <;>
    · unfold determine_status
      split_ifs with h1 h2 <;>
        simp_all [Option.isSome_iff_ne_none] <;>
        tauto

/-- Claim C10: for every pipeline state with nonempty transcript text and no
speaker segments, QualityScoringAgent.process returns the state with
quality_score set to the transcript-path evaluation result and with the errors
and summary left untouched; and every failure mode of that evaluation (the LLM
call raising, the reply failing to parse as JSON, or the parsed scores failing
validation) yields exactly the fixed fallback score of three 5.0 values and the
fixed feedback sentence. -/
theorem C10_quality_transcript_path (loads : String → Option JValue)
    (env : QualityEnv) (state : AgentState) (now : String) (t : String)
    (htt : state.transcript_text = some t) (hne : t ≠ "")
    (hsp : state.speakers = []) :
    (quality_process loads env state now).quality_score =
      some (evaluate_quality loads env.llm_transcript) ∧
    (quality_process loads env state now).errors = state.errors ∧
    (quality_process loads env state now).summary = state.summary ∧
    fallback_quality_score =
      ⟨5, 5, 5, "Unable to evaluate quality due to processing error."⟩ ∧
    (∀ e, env.llm_transcript = .error e →
      evaluate_quality loads env.llm_transcript = fallback_quality_score) ∧
    (∀ raw, env.llm_transcript = .ok raw → loads (strip_code_fences raw) = none →
      evaluate_quality loads env.llm_transcript = fallback_quality_score) ∧
    (∀ raw j, env.llm_transcript = .ok raw → loads (strip_code_fences raw) = some j →
      mkQualityScore j = .error () →
      evaluate_quality loads env.llm_transcript = fallback_quality_score) := by
  have hq : quality_process loads env state now =
      { state with quality_score := some (evaluate_quality loads env.llm_transcript) } := by
    unfold quality_process
    rw [htt, hsp]
    simp [pyFalsyStr, hne]
  refine ⟨by rw [hq], by rw [hq], by rw [hq], rfl, ?_, ?_, ?_⟩
  · intro e he
    rw [he]
    rfl
  · intro raw hraw hload
    rw [hraw]
    simp [evaluate_quality, hload]
  · intro raw j hraw hload hmk
    rw [hraw]
    simp [evaluate_quality, hload, hmk]

/-- Witness for the C10 theorem on the concrete transcript-only state with an
unparseable LLM reply. -/
theorem C10_witness :
    (quality_process (fun _ => none) ⟨.ok "junk", .ok "junk"⟩ transcriptOnlyState
        "2024-01-01T00:00:00").quality_score =
      some (evaluate_quality (fun _ => none) (.ok "junk")) :=
  (C10_quality_transcript_path (fun _ => none) ⟨.ok "junk", .ok "junk"⟩
    transcriptOnlyState "2024-01-01T00:00:00" "hello world" rfl (by decide) rfl).1

/-! ## Claim C7: feedback flattening -/

/-- Spec-side description of the flattened feedback string: the space-join of
one Key: value part per entry whose value is a string (verbatim), list or
object (serialized with json.dumps), keys title-cased; entries of any other
value kind contribute no part. -/
def flattenedFeedbackSpec (fd : List (String × JValue)) : String :=
  String.intercalate " " (fd.filterMap fun kv =>
    match kv.2 with
    | JValue.str s => some (pyTitle kv.1 ++ ": " ++ s)
    | JValue.arr xs => some (pyTitle kv.1 ++ ": " ++ dumps (JValue.arr xs))
    | JValue.obj o => some (pyTitle kv.1 ++ ": " ++ dumps (JValue.obj o))
    | _ => none)

theorem feedback_parts_eq_filterMap (fd : List (String × JValue)) :
    feedback_parts fd = fd.filterMap fun kv =>
      match kv.2 with
      | JValue.str s => some (pyTitle kv.1 ++ ": " ++ s)
      | JValue.arr xs => some (pyTitle kv.1 ++ ": " ++ dumps (JValue.arr xs))
      | JValue.obj o => some (pyTitle kv.1 ++ ": " ++ dumps (JValue.obj o))
      | _ => none := by
  induction fd with
  | nil => rfl
  | cons kv rest ih =>
    obtain ⟨k, v⟩ := kv
    cases v <;> simp [feedback_parts, List.filterMap_cons, ih] <;> exact ih

theorem alookup_map_const {α : Type} (l : List (String × α)) (k : String) (c : α)
    (h : (alookup l k).isSome = true) :
    alookup (l.map fun kv => if kv.1 = k then (kv.1, c) else kv) k = some c := by
  induction l with
  | nil => simp [alookup] at h
  | cons hd tl ih =>
    obtain ⟨k₀, v₀⟩ := hd
    simp only [List.map_cons]
    by_cases hk : k₀ = k
    · subst hk
      rw [if_pos rfl]
      simp [alookup]
    · rw [if_neg hk]
      have h' : (alookup tl k).isSome = true := by
        simpa [alookup, hk] using h
      simp [alookup, hk, ih h']

/-- Claim C7 counterexample: on a reply that parses to an object whose feedback
value is the object with the single numeric entry n, parse_llm_json_response
returns feedback as the empty string; the numeric entry contributes no
Key: value part, refuting the claimed one part per entry. -/
theorem C7_counterexample_numeric_entry_dropped :
    parse_llm_json_response structuredFeedbackLoads "x" none =
      .ok (JValue.obj [("feedback", JValue.str "")]) ∧
    ("" : String) ≠ "N: 1" := by
  refine ⟨rfl, by decide⟩

/-- Claim C7 amended: for every LLM reply whose cleaned content parses as a
JSON object with a feedback field holding a nested object,
parse_llm_json_response replaces that value in place by a single string: the
space-join of one title-cased Key: value part per entry whose value is a
string, list or object (lists and objects serialized with json.dumps; entries
with other value kinds such as numbers, booleans or null are dropped), so the
returned feedback value is a string. -/
theorem C7_amended_feedback_flattening (loads : String → Option JValue)
    (content : String) (fallback : Option (List (String × JValue)))
    (kvs fd : List (String × JValue))
    (hc : content ≠ "")
    (hl : loads (clean_llm_content content) = some (JValue.obj kvs))
    (hf : alookup kvs "feedback" = some (JValue.obj fd)) :
    parse_llm_json_response loads content fallback =
      .ok (JValue.obj (kvs.map fun kv =>
        if kv.1 = "feedback" then (kv.1, JValue.str (flattenedFeedbackSpec fd))
        else kv)) ∧
    alookup (kvs.map fun kv =>
        if kv.1 = "feedback" then (kv.1, JValue.str (flattenedFeedbackSpec fd))
        else kv) "feedback" = some (JValue.str (flattenedFeedbackSpec fd)) := by
  refine ⟨?_, alookup_map_const kvs "feedback" _ (by rw [hf]; rfl)⟩
  have h1 : parse_llm_json_response loads content fallback =
      .ok (fix_feedback (JValue.obj kvs)) := by
    unfold parse_llm_json_response
    rw [if_neg hc, hl]
  rw [h1]
  have h2 : fix_feedback (JValue.obj kvs) =
      JValue.obj (kvs.map fun kv =>
        if kv.1 = "feedback" then
          (kv.1, JValue.str (String.intercalate " " (feedback_parts fd)))
        else kv) := by
    simp only [fix_feedback, hf]
  rw [h2, feedback_parts_eq_filterMap]
  rfl

/-- Witness for the amended C7 theorem at the concrete structured-feedback
reply. -/
theorem C7_amended_witness :
    parse_llm_json_response structuredFeedbackLoads "x" none =
      .ok (JValue.obj ([("feedback", JValue.obj [("n", JValue.num 1)])].map fun kv =>
        if kv.1 = "feedback" then
          (kv.1, JValue.str (flattenedFeedbackSpec [("n", JValue.num 1)]))
        else kv)) :=
  (C7_amended_feedback_flattening structuredFeedbackLoads "x" none
    [("feedback", JValue.obj [("n", JValue.num 1)])] [("n", JValue.num 1)]
    (by decide) rfl rfl).1

/-! ## Claim C8: speaker statistics -/

theorem alookup_map_pct (l : List (String × PStats)) (T : ℚ) (k : String) :
    alookup (l.map fun kv => (kv.1, pctStats T kv.2)) k =
      (alookup l k).map (pctStats T) := by
  induction l with
  | nil => rfl
  | cons hd tl ih =>
    obtain ⟨k₀, v₀⟩ := hd
    by_cases h : k₀ = k
    · subst h; simp [alookup]
    · simp [alookup, h, ih]

/-- Claim C8 counterexample: on two overlapping segments whose last end time is
5 while an earlier segment ends at 10, calculate_speaker_statistics returns
total duration 10, the maximum end time, not the end time of the last segment
as the claim states. -/
theorem C8_counterexample_total_duration_not_last_end :
    (calculate_speaker_statistics unsortedSegs).total_duration = 10 ∧
    (unsortedSegs.map SpeakerSegment.«end»).getLast? = some 5 ∧
    (10 : ℚ) ≠ 5 := by
  refine ⟨by decide, rfl, by decide⟩

/-- Claim C8 amended: calculate_speaker_statistics returns the all-zero
aggregate for the empty list; otherwise the total duration is the maximum
segment end time (the overall span, equal to the last end time only when end
times are non-decreasing), the speaker count is the number of distinct speaker
labels, and each speaker maps to its segment count, summed per-segment
duration, whitespace-split word count, and percentage of the total duration
(zero when the total is zero); on the spec example the totals are 10.0 with
Speaker 0 at two segments and 70 percent and Speaker 1 at one segment and 30
percent. -/
theorem C8_amended_speaker_statistics :
    calculate_speaker_statistics [] =
      ({ total_speakers := 0, total_duration := 0, speaker_stats := [] } :
        SpeakerStatistics) ∧
    (∀ speakers : List SpeakerSegment,
      (calculate_speaker_statistics speakers).total_duration =
        speakers.foldl (fun a s => max a s.«end») 0) ∧
    (∀ speakers : List SpeakerSegment,
      (calculate_speaker_statistics speakers).total_speakers =
        (insDedup [] (speakers.map SpeakerSegment.speaker)).length) ∧
    (∀ (speakers : List SpeakerSegment) (sp : String),
      alookup (calculate_speaker_statistics speakers).speaker_stats sp =
        (if (speakers.filter fun s => s.speaker = sp) = [] then none
         else some
           ⟨(speakers.filter fun s => s.speaker = sp).length,
            ((speakers.filter fun s => s.speaker = sp).map
              fun s => s.«end» - s.start).sum,
            ((speakers.filter fun s => s.speaker = sp).map
              fun s => (pySplit s.text).length).sum,
            if speakers.foldl (fun a s => max a s.«end») 0 > 0 then
              ((speakers.filter fun s => s.speaker = sp).map
                fun s => s.«end» - s.start).sum /
                speakers.foldl (fun a s => max a s.«end») 0 * 100
            else 0⟩)) ∧
    calculate_speaker_statistics exampleSegs =
      ⟨2, 10,
       [("Speaker 0", ⟨2, 7, 3, 70⟩), ("Speaker 1", ⟨1, 3, 1, 30⟩)]⟩ := by
  have h01 : ("Speaker 0" : String) ≠ "Speaker 1" := by decide
  have h10 : ("Speaker 1" : String) ≠ "Speaker 0" := by decide
  have w1 : (pySplit "hello there").length = 2 := by decide
  have w2 : (pySplit "hi").length = 1 := by decide
  have w3 : (pySplit "bye").length = 1 := by decide
  refine ⟨rfl, ?_, ?_, ?_, ?_⟩
  · intro speakers
    cases speakers with
    | nil => rfl
    | cons s l =>
      rw [calc_stats_cons]
      exact foldl_statStep_snd (s :: l) [] 0
  · intro speakers
    cases speakers with
    | nil => rfl
    | cons s l =>
      rw [calc_stats_cons]
      have hk := congrArg List.length (foldl_statStep_keys (s :: l) [] 0)
      simpa using hk
  · intro speakers sp
    cases speakers with
    | nil => simp [calculate_speaker_statistics, alookup]
    | cons s l =>
      rw [calc_stats_cons]
      show alookup (((s :: l).foldl statStep ([], 0)).1.map
          fun kv => (kv.1, pctStats ((s :: l).foldl statStep ([], 0)).2 kv.2)) sp = _
      rw [alookup_map_pct, foldl_statStep_lookup, foldl_statStep_snd]
      show Option.map _ (olookup (alookup [] sp) _) = _
      simp only [alookup]
      unfold olookup
      by_cases hf : ((s :: l).filter fun seg => seg.speaker = sp) = []
      · rw [if_pos hf, if_pos hf]
        rfl
      · rw [if_neg hf, if_neg hf]
        simp [pctStats, pAgg]
  · show calculate_speaker_statistics
        [⟨"Speaker 0", "hello there", 0, 5, 9/10⟩, ⟨"Speaker 1", "hi", 5, 8, 9/10⟩,
         ⟨"Speaker 0", "bye", 8, 10, 9/10⟩] = _
    rw [calc_stats_cons]
    norm_num [statStep, alookup, h01, h10, pctStats, w1, w2, w3, max_def]

/-- Witness for the C8 theorem at the spec example segments. -/
theorem C8_amended_witness :
    (calculate_speaker_statistics exampleSegs).total_speakers =
      (insDedup [] (exampleSegs.map SpeakerSegment.speaker)).length :=
  C8_amended_speaker_statistics.2.2.1 exampleSegs

/-- Terminal state with both results present and no errors. -/
def successState : AgentState :=
  { transcriptOnlyState with
    summary := some fallback_call_summary
    quality_score := some fallback_quality_score }

/-- Witness for the C4 theorem: the concrete fully-populated error-free state
classifies as success. -/
theorem C4_status_witness : determine_status successState = "success" :=
  (C4_status_classification successState).1.mpr
    ⟨rfl, rfl, rfl⟩

/-- Witness for the C9 theorem at a concrete exception message. -/
theorem C9_error_result_witness :
    (workflow_exception_result "boom" 0 "now").call_id = "error" :=
  (C9_error_result_fixed_fields "boom" 0 "now").1

end CallSummarizer
